import Mathlib

/-!
# Verification of the blender_tts synthesizer dispatch core

Shallow embedding, in Lean 4, of the plugin-dispatch and background-execution
core of the `blender_tts` repository (the `vocal_vse` add-on), together with
theorems settling the specification's claims about it.

Embedded source files:
* `vocal_vse/operators/generate.py` — the background worker
  (`background_synthesis_task`), the caller-side message drain of
  `VSE_OT_generate_narration.modal`, and the synthesizer-reference resolution
  of `VSE_OT_generate_narration.invoke`;
* `vocal_vse/tts/cmd.py` — the external-process synthesizer
  (`Synthesizer._prepare_command`, `Synthesizer.synthesize`);
* `vocal_vse/tts/pyttsx3.py` — the in-process synthesizer's
  success/failure reporting (`Handler.synthesize`);
* `vocal_vse/core/__init__.py` and `vocal_vse/core/config.py` — the voice
  profile registry (`load_voices_config` / `Config._load_voices`) and the
  lazy-attribute hook (`Config.__getattr__`, identical to
  `BaseTTSHandler.__getattr__` in `vocal_vse/tts/__init__.py`);
* `vocal_vse/core/file_manager.py` — the output namer
  (`get_or_create_strip_id`).

Modelling conventions: Python exceptions become `Except` values carrying the
exception class name and message; external effects that the code merely
consumes (the TOML parser, the subprocess launcher, `uuid.uuid4()`, the
wall clock, the filesystem) become explicit oracle parameters; the mutable
cancellation flag (`threading.Event`, which in this program is only ever set,
never cleared) becomes a monotone observation threshold: the k-th read of the
flag returns true exactly when k is at or beyond the threshold.
-/

/-! ## Data model: strips, synthesis outcomes, queue messages -/

/-- The part of a Blender sequence strip that `background_synthesis_task`
reads: `strip.type`, `strip.text` and `strip.name`
(`vocal_vse/operators/generate.py`). -/
structure Strip where
  type : String
  text : String
  name : String
deriving DecidableEq, Repr

/-- Outcome of one `handler_instance.synthesize(text, filepath)` call as the
worker sees it: the call either returns a value (the in-process handlers
return a success boolean, which the worker ignores) or raises an exception
with a message. -/
inductive SynthOutcome where
  | ret (success : Bool)
  | exn (msg : String)
deriving DecidableEq, Repr

/-- A message put on the worker's `message_queue`, mirroring the
`MSG_PROGRESS` / `MSG_RESULT` / `MSG_ERROR` / `MSG_CRITICAL_ERROR` /
`MSG_FINISHED` dictionaries of `vocal_vse/operators/generate.py`. -/
inductive Msg where
  | progress (progress : Nat) (current_strip : String) (has_error : Bool)
  | result (strip_name : String) (filepath : String)
  | error (msg : String)
  | critical_error (msg : String)
  | finished
deriving DecidableEq, Repr

/-- `stop_event.is_set()` at the k-th observation, for a monotone flag that
becomes set just before observation number `threshold` (`none` = never set). -/
def cancel_seen (threshold : Option Nat) (obs : Nat) : Bool :=
  match threshold with
  | none => false
  | some t => t ≤ obs

/-! ### Character-level models of the Python string primitives

The embedding implements the few Python `str` operations the sources use
(`in`, `strip`, `replace`, `rsplit`, `startswith`, slicing) by structural
recursion over character lists, so that every definition evaluates by kernel
reduction on concrete inputs. -/

/-- `needle` is a prefix of `hay` (Python `hay.startswith(needle)`). -/
def starts_with_chars : List Char → List Char → Bool
  | [], _ => true
  | _ :: _, [] => false
  | c :: cs, d :: ds => c == d && starts_with_chars cs ds

/-- `needle` occurs as a contiguous run inside `hay`
(Python `needle in hay`). -/
def contains_chars (needle : List Char) : List Char → Bool
  | [] => starts_with_chars needle []
  | c :: rest => starts_with_chars needle (c :: rest) || contains_chars needle rest

/-- Python's substring test `needle in hay`. -/
def contains_substr (needle hay : String) : Bool :=
  contains_chars needle.toList hay.toList

/-- Python `hay.startswith(needle)`. -/
def py_startswith (hay needle : String) : Bool :=
  starts_with_chars needle.toList hay.toList

/-- Python `s.strip()` (with no argument): remove leading and trailing
whitespace. -/
def py_strip (s : String) : String :=
  String.mk (((s.toList.dropWhile Char.isWhitespace).reverse.dropWhile
    Char.isWhitespace).reverse)

/-- Left-to-right, non-overlapping replacement of `pat` by `rep`, with
explicit fuel (one unit per character consumed suffices, since a match
consumes at least one character when `pat` is non-empty). -/
def replace_go (pat rep : List Char) : Nat → List Char → List Char
  | _, [] => []
  | 0, l => l
  | fuel + 1, c :: rest =>
    if !pat.isEmpty && starts_with_chars pat (c :: rest) then
      rep ++ replace_go pat rep fuel ((c :: rest).drop pat.length)
    else
      c :: replace_go pat rep fuel rest

/-- Python `s.replace(pat, rep)` for a non-empty pattern (both uses in the
sources have non-empty patterns). -/
def py_replace (s pat rep : String) : String :=
  String.mk (replace_go pat.toList rep.toList s.toList.length s.toList)

/-- The error string built in the worker's per-item `except` branch
(`f"Error generating audio for '{strip.name}': {e}"`; the appended traceback
text is not modelled). -/
def item_error_message (strip_name exc : String) : String :=
  "Error generating audio for '" ++ strip_name ++ "': " ++ exc

/-- The error string built in the worker's outer `except` branch
(`f"Critical error in background task: {e}"`; traceback text not modelled). -/
def critical_error_message (exc : String) : String :=
  "Critical error in background task: " ++ exc

/-- The `for i, strip in enumerate(selected_sequences)` loop of
`background_synthesis_task` (`vocal_vse/operators/generate.py`, lines 37-105),
from loop index `i` on.

* `synth i` is the outcome of `handler_instance.synthesize` at loop index `i`;
* `gen_filename i` is the outcome of
  `file_manager.generate_audio_filename(output_dir, strip)` at index `i`
  (called outside the per-item `try`, inside the outer `try`, so an exception
  here is the reachable source of the `MSG_CRITICAL_ERROR` path);
* `stop_event` is the cancellation threshold for `cancel_seen`; the flag is
  read once at the top of each iteration and once after the loop, so the
  observation counter coincides with the loop index.

Per iteration the code: checks the flag (if set, puts `MSG_FINISHED` and
returns); skips strips that are not `TEXT` or whose stripped text is empty;
computes the filename; tries `synthesize`, putting `MSG_RESULT` on return and
`MSG_ERROR` on exception; then puts `MSG_PROGRESS` with `i + 1` and
`has_error`. After the loop it puts `MSG_FINISHED` only under
`if not stop_event.is_set()`. -/
def synthesis_loop (synth : Nat → SynthOutcome)
    (gen_filename : Nat → Except String String)
    (stop_event : Option Nat) : List Strip → Nat → List Msg
  | [], i => if cancel_seen stop_event i then [] else [Msg.finished]
  | strip :: rest, i =>
    if cancel_seen stop_event i then [Msg.finished]
    else if strip.type != "TEXT" || py_strip strip.text == "" then
      synthesis_loop synth gen_filename stop_event rest (i + 1)
    else
      match gen_filename i with
      | Except.error e => [Msg.critical_error (critical_error_message e), Msg.finished]
      | Except.ok filepath =>
        match synth i with
        | SynthOutcome.ret _ =>
          Msg.result strip.name filepath ::
          Msg.progress (i + 1) strip.name false ::
          synthesis_loop synth gen_filename stop_event rest (i + 1)
        | SynthOutcome.exn e =>
          Msg.error (item_error_message strip.name e) ::
          Msg.progress (i + 1) strip.name true ::
          synthesis_loop synth gen_filename stop_event rest (i + 1)

/-- `background_synthesis_task(handler, selected_sequences, output_dir, queue,
stop_event)`: the ordered sequence of messages the worker puts on
`message_queue` for the whole batch (the `os.makedirs(output_dir)` call, which
precedes every message, is not modelled). -/
def background_synthesis_task (synth : Nat → SynthOutcome)
    (gen_filename : Nat → Except String String)
    (stop_event : Option Nat) (strips : List Strip) : List Msg :=
  synthesis_loop synth gen_filename stop_event strips 0

/-! ## Caller-side drain (`VSE_OT_generate_narration.modal`) -/

/-- The per-operator state the modal handler accumulates while draining the
queue (`collected_results`, `collected_errors`, `critical_error`,
`task_finished` in `vocal_vse/operators/generate.py`). -/
structure ModalState where
  collected_results : List (String × String)
  collected_errors : List String
  critical_error : Option String
  task_finished : Bool
deriving DecidableEq, Repr

/-- State right after `invoke` submits the task. -/
def modal_initial_state : ModalState :=
  { collected_results := [], collected_errors := [], critical_error := none,
    task_finished := false }

/-- One turn of the message-processing `while True` loop in `modal`:
dispatch on the message type. -/
def process_message (st : ModalState) (m : Msg) : ModalState :=
  match m with
  | Msg.progress _ _ _ => st
  | Msg.error d => { st with collected_errors := st.collected_errors ++ [d] }
  | Msg.critical_error d => { st with critical_error := some d }
  | Msg.result n p => { st with collected_results := st.collected_results ++ [(n, p)] }
  | Msg.finished => { st with task_finished := true }

/-- Draining a sequence of messages in emission order. -/
def drain_messages (st : ModalState) (msgs : List Msg) : ModalState :=
  msgs.foldl process_message st

/-! ## Helper observers on event sequences -/

/-- A terminal event for an item: `MSG_RESULT` or `MSG_ERROR`. -/
def is_terminal : Msg → Bool
  | Msg.result _ _ => true
  | Msg.error _ => true
  | _ => false

/-- The terminal events of a batch's event sequence, in order. -/
def terminal_events (l : List Msg) : List Msg :=
  l.filter is_terminal

/-- Number of `MSG_FINISHED` events in a sequence. -/
def finished_count (l : List Msg) : Nat :=
  l.countP (fun m => m == Msg.finished)

/-- Number of `MSG_ERROR` events in a sequence. -/
def error_count (l : List Msg) : Nat :=
  l.countP (fun m => match m with | Msg.error _ => true | _ => false)

/-- Number of `MSG_RESULT` events in a sequence. -/
def result_count (l : List Msg) : Nat :=
  l.countP (fun m => match m with | Msg.result _ _ => true | _ => false)

/-- The payloads of the `MSG_ERROR` events of a sequence, in order. -/
def error_messages (l : List Msg) : List String :=
  l.filterMap (fun m => match m with | Msg.error s => some s | _ => none)

/-- A strip the worker does not skip: `strip.type == "TEXT"` and its stripped
text is non-empty. -/
def eligible (s : Strip) : Bool :=
  s.type == "TEXT" && py_strip s.text != ""

/-- Number of items the worker would attempt whose `synthesize` raises,
counting from loop index `i`. -/
def count_raising (synth : Nat → SynthOutcome) : List Strip → Nat → Nat
  | [], _ => 0
  | s :: rest, i =>
    (if eligible s && (match synth i with | SynthOutcome.exn _ => true | _ => false)
     then 1 else 0) + count_raising synth rest (i + 1)

/-- Number of items the worker would attempt whose `synthesize` returns
(any value, `True` or `False`), counting from loop index `i`. -/
def count_returning (synth : Nat → SynthOutcome) : List Strip → Nat → Nat
  | [], _ => 0
  | s :: rest, i =>
    (if eligible s && (match synth i with | SynthOutcome.ret _ => true | _ => false)
     then 1 else 0) + count_returning synth rest (i + 1)

/-! ## Synthesizer reference resolution (`VSE_OT_generate_narration.invoke`) -/

/-- Split a character list at its LAST colon, `none` when there is no
colon. -/
def rsplit_colon_chars : List Char → Option (List Char × List Char)
  | [] => none
  | c :: rest =>
    match rsplit_colon_chars rest with
    | some (m, k) => some (c :: m, k)
    | none => if c = ':' then some ([], rest) else none

/-- `synthesizer_spec.rsplit(":", 1)` guarded by `if ":" in synthesizer_spec`
(`vocal_vse/operators/generate.py`, lines 186-195): split at the last colon;
`none` models the error-report-and-cancel branch for specs without a colon. -/
def rsplit_colon (spec : String) : Option (String × String) :=
  match rsplit_colon_chars spec.toList with
  | none => none
  | some (m, k) => some (String.mk m, String.mk k)

/-- The `(handler_module_name, class_part)` pair `invoke` passes to
`importlib.import_module` / `getattr` (lines 197-205): a module part with a
leading dot is prefixed with the built-in namespace `vocal_vse.tts`; otherwise
`handler_module_name` is set to the WHOLE `synthesizer_spec` (not to
`module_part`). -/
def handler_module_of (spec : String) : Option (String × String) :=
  match rsplit_colon spec with
  | none => none
  | some (module_part, class_part) =>
    if py_startswith module_part "." then
      some ("vocal_vse.tts" ++ module_part, class_part)
    else
      some (spec, class_part)

/-! ## External-process synthesizer (`vocal_vse/tts/cmd.py`) -/

/-- A Python exception value: its class name and its message. -/
structure PyExc where
  exc_type : String
  message : String
deriving DecidableEq, Repr

/-- The construction parameters of `cmd.Synthesizer` used by
`_prepare_command`, `synthesize` and `is_available` (`shell`/`cwd` only feed
`subprocess.Popen`, which the `run` oracle stands for). -/
structure CmdSynthesizer where
  bin : String
  args : List String
deriving DecidableEq, Repr

/-- The `"\x7boutput_path\x7d"` placeholder searched for in template
arguments. -/
def output_path_placeholder : String := "\x7boutput_path\x7d"

/-- `arg.format(output_path=output_path)` for a template argument: every
occurrence of the placeholder is replaced by the output path. (Python
`str.format` agrees with this replacement on arguments whose only brace use
is the `output_path` replacement field, which is what the class docstring
prescribes; an argument with any other replacement field would raise inside
`str.format` and is not modelled.) -/
def format_arg (output_path arg : String) : String :=
  py_replace arg output_path_placeholder output_path

/-- The `for arg in self.args` loop of `_prepare_command` (lines 52-64): each
argument containing the placeholder is formatted (and the
`output_path_placeholder_used` flag set), others are kept verbatim. Returns
`(formatted_args, output_path_placeholder_used)`. -/
def format_args (output_path : String) : List String → List String × Bool
  | [] => ([], false)
  | arg :: rest =>
    let tail := format_args output_path rest
    if contains_substr output_path_placeholder arg then
      (format_arg output_path arg :: tail.1, true)
    else
      (arg :: tail.1, tail.2)

/-- `Synthesizer._prepare_command(output_path)` (`vocal_vse/tts/cmd.py`,
lines 45-68): raises `ValueError` when `bin` is empty; otherwise formats the
argument template, appends `output_path` as the final argument when no
template argument contained the placeholder, and prepends `bin`. -/
def prepare_command (s : CmdSynthesizer) (output_path : String) :
    Except PyExc (List String) :=
  if s.bin = "" then
    Except.error
      { exc_type := "ValueError",
        message := "The 'bin' parameter (executable path) must be provided for the 'cmd' synthesizer." }
  else
    let formatted := format_args output_path s.args
    let final_args := if formatted.2 then formatted.1 else formatted.1 ++ [output_path]
    Except.ok (s.bin :: final_args)

/-- What launching the prepared command does, as `synthesize` observes it:
either `subprocess.Popen` raises `FileNotFoundError`, or the process runs to
completion with a return code and captured stdout/stderr. -/
inductive ProcResult where
  | not_found
  | exited (returncode : Int) (stdout : String) (stderr : String)
deriving DecidableEq, Repr

/-- `' '.join(cmd)` as used in the error message. -/
def join_space (l : List String) : String := String.intercalate " " l

/-- The `error_msg` built at lines 107-110 for a non-zero return code. -/
def nonzero_exit_message (cmd : List String) (rc : Int) (out err : String) : String :=
  "Command '" ++ join_space cmd ++ "' failed with return code " ++ toString rc ++
    ".\nStdout: " ++ out ++ "\nStderr: " ++ err

/-- The message of the `RuntimeError` raised at lines 122-127 when the
executable is not found. -/
def not_found_message (bin : String) : String :=
  "The executable '" ++ bin ++ "' was not found. Please check the 'bin' path."

/-- The generic wrapper applied by the `except Exception` handler at
lines 128-132; the `RuntimeError` raised inside the `try` for a non-zero
return code is itself an `Exception`, so it is re-wrapped by this handler. -/
def wrapped_failure_message (m : String) : String :=
  "Command execution failed: " ++ m

/-- `cmd.Synthesizer.synthesize(text, output_path)` (`vocal_vse/tts/cmd.py`,
lines 70-132), with the subprocess launch abstracted as the oracle `run`
(the `os.makedirs` call is not modelled). Exception mapping of the source:
executable-not-found → `RuntimeError` with `not_found_message`; non-zero
return code → `RuntimeError(error_msg)` raised inside the `try`, caught by
the generic `except Exception` handler and re-raised as
`RuntimeError("Command execution failed: " + error_msg)`; zero return code →
normal return. -/
def cmd_synthesize (s : CmdSynthesizer) (output_path : String)
    (run : List String → ProcResult) : Except PyExc Unit :=
  match prepare_command s output_path with
  | Except.error e => Except.error e
  | Except.ok cmd =>
    match run cmd with
    | ProcResult.not_found =>
      Except.error { exc_type := "RuntimeError", message := not_found_message s.bin }
    | ProcResult.exited rc out err =>
      if rc ≠ 0 then
        Except.error
          { exc_type := "RuntimeError",
            message := wrapped_failure_message (nonzero_exit_message cmd rc out err) }
      else
        Except.ok ()

/-- The exception class name of a failed `cmd_synthesize`, `none` on
success. -/
def exc_type_of : Except PyExc Unit → Option String
  | Except.error e => some e.exc_type
  | Except.ok _ => none

/-! ## In-process synthesizer failure reporting (`vocal_vse/tts/pyttsx3.py`) -/

/-- What the lazily-built pyttsx3 engine's save/wait sequence does, as
`Handler.synthesize` observes it: either it completes (and the output file
does or does not exist afterwards), or some step raises. -/
inductive EngineRun where
  | saved (file_written : Bool)
  | raised (msg : String)
deriving DecidableEq, Repr

/-- `pyttsx3.Handler.synthesize(text, output_path)` (`vocal_vse/tts/pyttsx3.py`,
lines 13-25): returns `False` when the engine failed to initialize, `False`
when any step raises (the `except` swallows the exception), and otherwise
`os.path.exists(output_path)` — so a run that produces no output file also
returns `False`. It never raises. -/
def pyttsx3_synthesize (engine_present : Bool) (run : EngineRun) : Bool :=
  if !engine_present then false
  else
    match run with
    | EngineRun.saved file_written => file_written
    | EngineRun.raised _ => false

/-! ## VoiceProfile registry (`load_voices_config` / `Config._load_voices`) -/

/-- A parsed voices mapping: profile key → (opaque) profile payload. -/
abbrev VoicesMap := List (String × String)

/-- The text written by `create_default_voices_config`
(`vocal_vse/core/__init__.py`, lines 123-144; the module-level copy in
`vocal_vse/core/config.py` differs only by two comment lines), after the
`.strip()` applied before writing. -/
def default_voices_toml : String :=
  "# Example Vocal VSE Configuration\n[pyttsx3]\nname=\"pyttsx3 (default)\"\nsynthesizer=\".pyttsx3:Synthesizer\"\n# https://gtts.readthedocs.io/en/latest/module.html#module-gtts.tts\n# example : \x7brate = 150, vioce=\"jp\", volume=0.5\x7d\nparams=\x7bvolume = 1.0\x7d\n\n[gtts-default]\nname=\"GTTS (default)\"\nsynthesizer=\".gtts:Synthesizer\"\n# https://gtts.readthedocs.io/en/latest/module.html#module-gtts.tts\n# example : \x7blang = \"en\", tld=\"com\", slow=True\x7d\nparams=\x7blang = \"en\"\x7d"

/-- `load_voices_config()` / `Config._load_voices()`
(`vocal_vse/core/config.py` lines 26-54, `vocal_vse/core/__init__.py`
lines 86-114; the two are textually identical in logic). Oracles:

* `parse` — the external TOML parser (`tomllib.load`), `none` on parse error;
* `tomllib_present` — whether `tomllib`/`tomli` can be imported;
* `file_content` — the current content of `voices.toml` (`none` = missing);
* `write_succeeds` — whether `create_default_voices_config`'s `open(...,"w")`
  write succeeds (that function swallows its own exceptions).

Control flow of the source: missing tomllib → return `{}`; missing file →
write the default file, then fall through to the shared open-and-parse step;
any exception while opening/parsing → return `{}`. Returns the resulting
mapping together with the final file content. -/
def load_voices_config (parse : String → Option VoicesMap)
    (tomllib_present : Bool) (file_content : Option String)
    (write_succeeds : Bool) : VoicesMap × Option String :=
  if !tomllib_present then ([], file_content)
  else
    let content :=
      match file_content with
      | none => if write_succeeds then some default_voices_toml else none
      | some c => some c
    match content with
    | none => ([], content)
    | some c =>
      match parse c with
      | some m => (m, content)
      | none => ([], content)

/-! ## Output namer (`vocal_vse/core/file_manager.py`) -/

/-- `get_or_create_strip_id(strip)` (`vocal_vse/core/file_manager.py`,
lines 7-11). The strip's custom-property bag is modelled by its `"tts_id"`
entry (`Option String`); `uuid4_str` is the oracle for `str(uuid.uuid4())`.
The minting expression `str(uuid.uuid4()).replace("-", "")[:16]` becomes
dash-removal followed by taking the first 16 characters (Python slicing works
on characters). Returns the identifier and the updated property bag. -/
def get_or_create_strip_id (uuid4_str : String) (tts_id : Option String) :
    String × Option String :=
  match tts_id with
  | some v => (v, some v)
  | none =>
    let new_id := String.mk ((py_replace uuid4_str "-" "").toList.take 16)
    (new_id, some new_id)

/-! ## Lazy `_get_<name>` attribute hook (`Config.__getattr__`,
`BaseTTSHandler.__getattr__`) -/

/-- An opaque Python attribute value; `pynone` is Python's `None`. -/
inductive PyVal where
  | pynone
  | pyval (n : Nat)
deriving DecidableEq, Repr

/-- An object of a class using the `_get_<name>` hook
(`vocal_vse/core/__init__.py` lines 14-30 and `vocal_vse/tts/__init__.py`
lines 24-40 — the two `__getattr__` bodies are identical):

* `dict` — the instance `__dict__` (first binding wins, as with
  `List.lookup`);
* `getters` — the class's `_get_<name>` methods: for each getter name, the
  value its k-th invocation returns (indexing by invocation lets the
  theorems say which invocation's value is cached);
* `calls` — how many times each getter has been invoked so far. -/
structure LazyObj where
  dict : List (String × PyVal)
  getters : String → Option (Nat → PyVal)
  calls : String → Nat

/-- Reading attribute `name` of a `LazyObj`, following Python semantics:
a hit in the instance `__dict__` returns directly (and `__getattr__` is not
invoked at all); on a miss, `__getattr__` runs: a name starting with
`"_get_"` is refused (`AttributeError`, modelled as `Except.error`),
otherwise `getattr(self, "_get_" + name, None)` looks up the getter; if it
exists, the getter is invoked once and its value is stored on the instance
via `setattr` before being returned (the source's intermediate
`setattr(self, name, None)` recursion guard has no further observable effect
here because the getter oracle does not read the object). -/
def read_attr (o : LazyObj) (name : String) : Except String (PyVal × LazyObj) :=
  match o.dict.lookup name with
  | some v => Except.ok (v, o)
  | none =>
    if py_startswith name "_get_" then Except.error "AttributeError"
    else
      match o.getters ("_get_" ++ name) with
      | none => Except.error "AttributeError"
      | some g =>
        let k := o.calls ("_get_" ++ name)
        let v := g k
        Except.ok (v,
          { o with
            dict := (name, v) :: o.dict,
            calls := fun s => if s = "_get_" ++ name then k + 1 else o.calls s })

/-! ## Helper lemmas -/

/-- The worker's skip condition is the negation of `eligible`. -/
theorem skip_condition_eq_not_eligible (s : Strip) :
    (s.type != "TEXT" || py_strip s.text == "") = !eligible s := by
  cases h1 : s.type == "TEXT" <;> cases h2 : py_strip s.text == "" <;>
    simp [eligible, bne, h1, h2]

/-- Draining appends exactly the `MSG_ERROR` payloads, in order, to
`collected_errors`. -/
theorem drain_collected_errors (msgs : List Msg) (st : ModalState) :
    (drain_messages st msgs).collected_errors =
      st.collected_errors ++ error_messages msgs := by
  induction msgs generalizing st with
  | nil => simp [drain_messages, error_messages]
  | cons m rest ih =>
    have hstep : drain_messages st (m :: rest) =
        drain_messages (process_message st m) rest := rfl
    rw [hstep, ih]
    cases m <;> simp [process_message, error_messages, List.filterMap_cons]

/-- Unfolding: the loop on `[]`. -/
theorem loop_nil (synth : Nat → SynthOutcome) (fp : Nat → Except String String)
    (st : Option Nat) (i : Nat) :
    synthesis_loop synth fp st [] i =
      if cancel_seen st i then [] else [Msg.finished] := rfl

/-- Unfolding: a set flag observed at the top of an iteration. -/
theorem loop_cons_cancelled (synth : Nat → SynthOutcome)
    (fp : Nat → Except String String) (st : Option Nat) (s : Strip)
    (rest : List Strip) (i : Nat) (hc : cancel_seen st i = true) :
    synthesis_loop synth fp st (s :: rest) i = [Msg.finished] := by
  simp [synthesis_loop, hc]

/-- Unfolding: a skipped strip produces no events. -/
theorem loop_cons_skip (synth : Nat → SynthOutcome)
    (fp : Nat → Except String String) (st : Option Nat) (s : Strip)
    (rest : List Strip) (i : Nat) (hc : cancel_seen st i = false)
    (he : eligible s = false) :
    synthesis_loop synth fp st (s :: rest) i =
      synthesis_loop synth fp st rest (i + 1) := by
  simp [synthesis_loop, hc, skip_condition_eq_not_eligible, he]

/-- Unfolding: an attempted item whose `synthesize` returns. -/
theorem loop_cons_ret (synth : Nat → SynthOutcome)
    (fp : Nat → Except String String) (st : Option Nat) (s : Strip)
    (rest : List Strip) (i : Nat) (p : String) (b : Bool)
    (hc : cancel_seen st i = false) (he : eligible s = true)
    (hfp : fp i = Except.ok p) (hs : synth i = SynthOutcome.ret b) :
    synthesis_loop synth fp st (s :: rest) i =
      Msg.result s.name p :: Msg.progress (i + 1) s.name false ::
        synthesis_loop synth fp st rest (i + 1) := by
  simp [synthesis_loop, hc, skip_condition_eq_not_eligible, he, hfp, hs]

/-- Unfolding: an attempted item whose `synthesize` raises. -/
theorem loop_cons_exn (synth : Nat → SynthOutcome)
    (fp : Nat → Except String String) (st : Option Nat) (s : Strip)
    (rest : List Strip) (i : Nat) (p : String) (e : String)
    (hc : cancel_seen st i = false) (he : eligible s = true)
    (hfp : fp i = Except.ok p) (hs : synth i = SynthOutcome.exn e) :
    synthesis_loop synth fp st (s :: rest) i =
      Msg.error (item_error_message s.name e) :: Msg.progress (i + 1) s.name true ::
        synthesis_loop synth fp st rest (i + 1) := by
  simp [synthesis_loop, hc, skip_condition_eq_not_eligible, he, hfp, hs]

/-- Unfolding: a filename-generation failure aborts the batch with
`MSG_CRITICAL_ERROR` then `MSG_FINISHED`. -/
theorem loop_cons_critical (synth : Nat → SynthOutcome)
    (fp : Nat → Except String String) (st : Option Nat) (s : Strip)
    (rest : List Strip) (i : Nat) (e : String)
    (hc : cancel_seen st i = false) (he : eligible s = true)
    (hfp : fp i = Except.error e) :
    synthesis_loop synth fp st (s :: rest) i =
      [Msg.critical_error (critical_error_message e), Msg.finished] := by
  simp [synthesis_loop, hc, skip_condition_eq_not_eligible, he, hfp]

/-- `error_count` on a cons. -/
theorem error_count_cons (m : Msg) (l : List Msg) :
    error_count (m :: l) =
      error_count l + (match m with | Msg.error _ => 1 | _ => 0) := by
  cases m <;> simp [error_count, List.countP_cons]

/-- `result_count` on a cons. -/
theorem result_count_cons (m : Msg) (l : List Msg) :
    result_count (m :: l) =
      result_count l + (match m with | Msg.result _ _ => 1 | _ => 0) := by
  cases m <;> simp [result_count, List.countP_cons]

/-- With no cancellation and no filename failure, the worker emits one
`MSG_ERROR` per attempted item whose `synthesize` raises. -/
theorem loop_error_count (synth : Nat → SynthOutcome)
    (fp : Nat → Except String String) (h : ∀ i, ∃ p, fp i = Except.ok p) :
    ∀ (l : List Strip) (i : Nat),
      error_count (synthesis_loop synth fp none l i) = count_raising synth l i := by
  intro l
  induction l with
  | nil =>
    intro i
    simp [loop_nil, cancel_seen, error_count, count_raising]
  | cons s rest ih =>
    intro i
    obtain ⟨p, hp⟩ := h i
    have hc : cancel_seen none i = false := rfl
    cases he : eligible s with
    | false =>
      rw [loop_cons_skip synth fp none s rest i hc he]
      simp [count_raising, he, ih (i + 1)]
    | true =>
      cases hs : synth i with
      | ret b =>
        rw [loop_cons_ret synth fp none s rest i p b hc he hp hs,
          error_count_cons, error_count_cons]
        simp [count_raising, he, hs, ih (i + 1)]
      | exn e =>
        rw [loop_cons_exn synth fp none s rest i p e hc he hp hs,
          error_count_cons, error_count_cons]
        simp [count_raising, he, hs, ih (i + 1)]
        omega

/-- With no cancellation and no filename failure, the worker emits one
`MSG_RESULT` per attempted item whose `synthesize` returns — whatever the
returned value. -/
theorem loop_result_count (synth : Nat → SynthOutcome)
    (fp : Nat → Except String String) (h : ∀ i, ∃ p, fp i = Except.ok p) :
    ∀ (l : List Strip) (i : Nat),
      result_count (synthesis_loop synth fp none l i) = count_returning synth l i := by
  intro l
  induction l with
  | nil =>
    intro i
    simp [loop_nil, cancel_seen, result_count, count_returning]
  | cons s rest ih =>
    intro i
    obtain ⟨p, hp⟩ := h i
    have hc : cancel_seen none i = false := rfl
    cases he : eligible s with
    | false =>
      rw [loop_cons_skip synth fp none s rest i hc he]
      simp [count_returning, he, ih (i + 1)]
    | true =>
      cases hs : synth i with
      | ret b =>
        rw [loop_cons_ret synth fp none s rest i p b hc he hp hs,
          result_count_cons, result_count_cons]
        simp [count_returning, he, hs, ih (i + 1)]
        omega
      | exn e =>
        rw [loop_cons_exn synth fp none s rest i p e hc he hp hs,
          result_count_cons, result_count_cons]
        simp [count_returning, he, hs, ih (i + 1)]

/-- With no cancellation and no filename failure, the batch's event sequence
is some prefix followed by a single final `MSG_FINISHED`. -/
theorem loop_ends_with_finished (synth : Nat → SynthOutcome)
    (fp : Nat → Except String String) (h : ∀ i, ∃ p, fp i = Except.ok p) :
    ∀ (l : List Strip) (i : Nat),
      ∃ l', synthesis_loop synth fp none l i = l' ++ [Msg.finished] := by
  intro l
  induction l with
  | nil =>
    intro i
    exact ⟨[], by simp [loop_nil, cancel_seen]⟩
  | cons s rest ih =>
    intro i
    obtain ⟨p, hp⟩ := h i
    have hc : cancel_seen none i = false := rfl
    cases he : eligible s with
    | false =>
      rw [loop_cons_skip synth fp none s rest i hc he]
      exact ih (i + 1)
    | true =>
      obtain ⟨l', hl'⟩ := ih (i + 1)
      cases hs : synth i with
      | ret b =>
        refine ⟨Msg.result s.name p :: Msg.progress (i + 1) s.name false :: l', ?_⟩
        rw [loop_cons_ret synth fp none s rest i p b hc he hp hs, hl']
        simp
      | exn e =>
        refine ⟨Msg.error (item_error_message s.name e) :: Msg.progress (i + 1) s.name true :: l', ?_⟩
        rw [loop_cons_exn synth fp none s rest i p e hc he hp hs, hl']
        simp

/-- With no cancellation and no filename failure, the last event of the
batch is `MSG_FINISHED`. -/
theorem loop_last_is_finished (synth : Nat → SynthOutcome)
    (fp : Nat → Except String String) (h : ∀ i, ∃ p, fp i = Except.ok p)
    (l : List Strip) (i : Nat) :
    (synthesis_loop synth fp none l i).getLast? = some Msg.finished := by
  obtain ⟨l', hl'⟩ := loop_ends_with_finished synth fp h l i
  rw [hl']
  simp [List.getLast?_concat]

/-- `terminal_events` on a cons. -/
theorem terminal_events_cons (m : Msg) (l : List Msg) :
    terminal_events (m :: l) =
      if is_terminal m then m :: terminal_events l else terminal_events l := by
  simp [terminal_events, List.filter_cons]

/-- Terminal events of a run cancelled at observation threshold `c` are
exactly the terminal events of the uncancelled run on the first `c - i`
strips (counting from loop index `i`). -/
theorem loop_cancel_terminals (synth : Nat → SynthOutcome)
    (fp : Nat → Except String String) (c : Nat) :
    ∀ (l : List Strip) (i : Nat),
      terminal_events (synthesis_loop synth fp (some c) l i)
        = terminal_events (synthesis_loop synth fp none (l.take (c - i)) i) := by
  intro l
  induction l with
  | nil =>
    intro i
    rw [List.take_nil, loop_nil, loop_nil]
    by_cases hci : c ≤ i <;>
      simp [cancel_seen, hci, terminal_events, is_terminal]
  | cons s rest ih =>
    intro i
    by_cases hci : c ≤ i
    · have h0 : c - i = 0 := Nat.sub_eq_zero_of_le hci
      have hc : cancel_seen (some c) i = true := by
        simp [cancel_seen, hci]
      rw [loop_cons_cancelled synth fp (some c) s rest i hc, h0, List.take_zero,
        loop_nil]
      simp [cancel_seen, terminal_events, is_terminal]
    · have hc : cancel_seen (some c) i = false := by
        simp [cancel_seen]; omega
      have hcn : cancel_seen none i = false := rfl
      have hstep : c - i = (c - (i + 1)) + 1 := by omega
      rw [hstep, List.take_succ_cons]
      cases he : eligible s with
      | false =>
        rw [loop_cons_skip synth fp (some c) s rest i hc he,
          loop_cons_skip synth fp none s (rest.take (c - (i + 1))) i hcn he]
        exact ih (i + 1)
      | true =>
        cases hfp : fp i with
        | error e =>
          rw [loop_cons_critical synth fp (some c) s rest i e hc he hfp,
            loop_cons_critical synth fp none s (rest.take (c - (i + 1))) i e hcn he hfp]
        | ok p =>
          cases hs : synth i with
          | ret b =>
            rw [loop_cons_ret synth fp (some c) s rest i p b hc he hfp hs,
              loop_cons_ret synth fp none s (rest.take (c - (i + 1))) i p b hcn he hfp hs,
              terminal_events_cons, terminal_events_cons,
              terminal_events_cons, terminal_events_cons]
            simp only [is_terminal, if_true, if_false, ih (i + 1)]
          | exn e =>
            rw [loop_cons_exn synth fp (some c) s rest i p e hc he hfp hs,
              loop_cons_exn synth fp none s (rest.take (c - (i + 1))) i p e hcn he hfp hs,
              terminal_events_cons, terminal_events_cons,
              terminal_events_cons, terminal_events_cons]
            simp only [is_terminal, if_true, if_false, ih (i + 1)]

/-- Extending an uncancelled run by one more strip adds at most one terminal
event: each iteration of the worker loop emits at most one `MSG_RESULT` or
`MSG_ERROR`. -/
theorem loop_take_succ_terminals (synth : Nat → SynthOutcome)
    (fp : Nat → Except String String) :
    ∀ (l : List Strip) (k i : Nat),
      (terminal_events (synthesis_loop synth fp none (l.take (k + 1)) i)).length
        ≤ (terminal_events (synthesis_loop synth fp none (l.take k) i)).length + 1 := by
  intro l
  induction l with
  | nil => intro k i; simp
  | cons s rest ih =>
    intro k i
    have hcn : cancel_seen none i = false := rfl
    cases k with
    | zero =>
      rw [List.take_succ_cons, List.take_zero, List.take_zero, loop_nil]
      have hrhs : (if cancel_seen none i then ([] : List Msg) else [Msg.finished]) =
          [Msg.finished] := rfl
      rw [hrhs]
      cases he : eligible s with
      | false =>
        rw [loop_cons_skip synth fp none s [] i hcn he, loop_nil]
        simp [cancel_seen, terminal_events, is_terminal]
      | true =>
        cases hfp : fp i with
        | error e =>
          rw [loop_cons_critical synth fp none s [] i e hcn he hfp]
          simp [terminal_events, is_terminal]
        | ok p =>
          cases hs : synth i with
          | ret b =>
            rw [loop_cons_ret synth fp none s [] i p b hcn he hfp hs, loop_nil]
            simp [cancel_seen, terminal_events, is_terminal, List.filter_cons]
          | exn e =>
            rw [loop_cons_exn synth fp none s [] i p e hcn he hfp hs, loop_nil]
            simp [cancel_seen, terminal_events, is_terminal, List.filter_cons]
    | succ k' =>
      rw [List.take_succ_cons, List.take_succ_cons]
      cases he : eligible s with
      | false =>
        rw [loop_cons_skip synth fp none s (rest.take (k' + 1)) i hcn he,
          loop_cons_skip synth fp none s (rest.take k') i hcn he]
        exact ih k' (i + 1)
      | true =>
        cases hfp : fp i with
        | error e =>
          rw [loop_cons_critical synth fp none s (rest.take (k' + 1)) i e hcn he hfp,
            loop_cons_critical synth fp none s (rest.take k') i e hcn he hfp]
          exact Nat.le_succ _
        | ok p =>
          cases hs : synth i with
          | ret b =>
            rw [loop_cons_ret synth fp none s (rest.take (k' + 1)) i p b hcn he hfp hs,
              loop_cons_ret synth fp none s (rest.take k') i p b hcn he hfp hs,
              terminal_events_cons, terminal_events_cons,
              terminal_events_cons, terminal_events_cons]
            simp [is_terminal]
            have := ih k' (i + 1)
            omega
          | exn e =>
            rw [loop_cons_exn synth fp none s (rest.take (k' + 1)) i p e hcn he hfp hs,
              loop_cons_exn synth fp none s (rest.take k') i p e hcn he hfp hs,
              terminal_events_cons, terminal_events_cons,
              terminal_events_cons, terminal_events_cons]
            simp [is_terminal]
            have := ih k' (i + 1)
            omega

/-! ## Claim theorems -/

/-- Claim C1 (code bug): the claim says every batch emits exactly one
`MSG_FINISHED` as its last event, regardless of cancellation. The code
violates this: when the cancellation flag is set after the last loop
iteration has begun but before the post-loop `if not stop_event.is_set()`
check (threshold 1 on a one-strip batch), the worker emits NO `MSG_FINISHED`
at all — contradicting the source's own comments that the final check is
"Redundant ... but safe" and that finish is signalled "even if cancelled".
Without that late cancellation the same batch does end in a single
`MSG_FINISHED`. -/
theorem c1_finished_lost_on_post_loop_cancellation :
    background_synthesis_task (fun _ => SynthOutcome.ret true)
        (fun _ => Except.ok "/tmp/x.wav") (some 1) [⟨"TEXT", "Hello", "A"⟩]
      = [Msg.result "A" "/tmp/x.wav", Msg.progress 1 "A" false]
    ∧ finished_count (background_synthesis_task (fun _ => SynthOutcome.ret true)
        (fun _ => Except.ok "/tmp/x.wav") (some 1) [⟨"TEXT", "Hello", "A"⟩]) = 0
    ∧ background_synthesis_task (fun _ => SynthOutcome.ret true)
        (fun _ => Except.ok "/tmp/x.wav") none [⟨"TEXT", "Hello", "A"⟩]
      = [Msg.result "A" "/tmp/x.wav", Msg.progress 1 "A" false, Msg.finished] :=
  ⟨rfl, rfl, rfl⟩

/-- Claim C2 (counterexample): for a one-request batch whose synthesis
succeeds, the claimed event order `[Progress(1/1), Result, Finished]` is NOT
what the worker emits — the actual sequence puts `MSG_RESULT` before
`MSG_PROGRESS`. -/
theorem c2_counterexample_progress_not_first :
    background_synthesis_task (fun _ => SynthOutcome.ret true)
        (fun _ => Except.ok "/tmp/x.wav") none [⟨"TEXT", "A", "A"⟩]
      = [Msg.result "A" "/tmp/x.wav", Msg.progress 1 "A" false, Msg.finished]
    ∧ background_synthesis_task (fun _ => SynthOutcome.ret true)
        (fun _ => Except.ok "/tmp/x.wav") none [⟨"TEXT", "A", "A"⟩]
      ≠ [Msg.progress 1 "A" false, Msg.result "A" "/tmp/x.wav", Msg.finished] :=
  ⟨rfl, by decide⟩

/-- Claim C2 (amended): for every one-request batch whose synthesis call
returns, with no cancellation, the worker emits exactly
`[Result(item, path), Progress(1/1), Finished]` — the `MSG_PROGRESS` event
for an item follows that item's terminal event. -/
theorem c2_single_success_event_order (s : Strip) (path : String) (b : Bool)
    (synth : Nat → SynthOutcome) (fp : Nat → Except String String)
    (he : eligible s = true) (hs : synth 0 = SynthOutcome.ret b)
    (hfp : fp 0 = Except.ok path) :
    background_synthesis_task synth fp none [s] =
      [Msg.result s.name path, Msg.progress 1 s.name false, Msg.finished] := by
  unfold background_synthesis_task
  rw [loop_cons_ret synth fp none s [] 0 path b rfl he hfp hs, loop_nil]
  rfl

/-- Witness for `c2_single_success_event_order` at a concrete batch. -/
theorem c2_single_success_event_order_witness :
    eligible ⟨"TEXT", "A", "A"⟩ = true
    ∧ background_synthesis_task (fun _ => SynthOutcome.ret true)
        (fun _ => Except.ok "/tmp/x.wav") none [⟨"TEXT", "A", "A"⟩]
      = [Msg.result "A" "/tmp/x.wav", Msg.progress 1 "A" false, Msg.finished] :=
  ⟨rfl, c2_single_success_event_order ⟨"TEXT", "A", "A"⟩ "/tmp/x.wav" true
    (fun _ => SynthOutcome.ret true) (fun _ => Except.ok "/tmp/x.wav") rfl rfl rfl⟩

/-- Claim C3 (counterexample): an in-process synthesizer that reports failure
by returning `False` — here `pyttsx3.Handler.synthesize` after the engine's
save produced no output file — does NOT get an `MSG_ERROR` event: the worker
ignores the boolean and emits `MSG_RESULT` for the item. -/
theorem c3_counterexample_false_return_yields_result :
    pyttsx3_synthesize true (EngineRun.saved false) = false
    ∧ background_synthesis_task
        (fun _ => SynthOutcome.ret (pyttsx3_synthesize true (EngineRun.saved false)))
        (fun _ => Except.ok "/tmp/x.wav") none [⟨"TEXT", "Hello", "A"⟩]
      = [Msg.result "A" "/tmp/x.wav", Msg.progress 1 "A" false, Msg.finished]
    ∧ error_count (background_synthesis_task
        (fun _ => SynthOutcome.ret (pyttsx3_synthesize true (EngineRun.saved false)))
        (fun _ => Except.ok "/tmp/x.wav") none [⟨"TEXT", "Hello", "A"⟩]) = 0
    ∧ result_count (background_synthesis_task
        (fun _ => SynthOutcome.ret (pyttsx3_synthesize true (EngineRun.saved false)))
        (fun _ => Except.ok "/tmp/x.wav") none [⟨"TEXT", "Hello", "A"⟩]) = 1 :=
  ⟨rfl, rfl, rfl, rfl⟩

/-- Claim C3 (amended): with no cancellation and no filename failure, the
worker emits one `MSG_ERROR` per attempted item whose `synthesize` RAISES and
one `MSG_RESULT` per attempted item whose `synthesize` returns — whatever
boolean it returns (in-process variants reporting failure by returning
`False` still get a `MSG_RESULT`); the batch always continues to the end,
finishing with `MSG_FINISHED`, and the caller's drain collects exactly the
emitted error messages into `collected_errors` for the batch summary. -/
theorem c3_raising_failures_become_error_events (synth : Nat → SynthOutcome)
    (fp : Nat → Except String String) (strips : List Strip)
    (h : ∀ i, ∃ p, fp i = Except.ok p) :
    error_count (background_synthesis_task synth fp none strips)
        = count_raising synth strips 0
    ∧ result_count (background_synthesis_task synth fp none strips)
        = count_returning synth strips 0
    ∧ (background_synthesis_task synth fp none strips).getLast? = some Msg.finished
    ∧ (drain_messages modal_initial_state
          (background_synthesis_task synth fp none strips)).collected_errors
        = error_messages (background_synthesis_task synth fp none strips) := by
  refine ⟨loop_error_count synth fp h strips 0, loop_result_count synth fp h strips 0,
    loop_last_is_finished synth fp h strips 0, ?_⟩
  rw [drain_collected_errors]
  simp [modal_initial_state]

/-- Witness for `c3_raising_failures_become_error_events`: three items, the
second raising. -/
theorem c3_raising_failures_become_error_events_witness :
    error_count (background_synthesis_task
        (fun i => if i = 1 then SynthOutcome.exn "boom" else SynthOutcome.ret true)
        (fun _ => Except.ok "/tmp/x.wav") none
        [⟨"TEXT", "one", "A"⟩, ⟨"TEXT", "two", "B"⟩, ⟨"TEXT", "three", "C"⟩])
      = count_raising
        (fun i => if i = 1 then SynthOutcome.exn "boom" else SynthOutcome.ret true)
        [⟨"TEXT", "one", "A"⟩, ⟨"TEXT", "two", "B"⟩, ⟨"TEXT", "three", "C"⟩] 0
    ∧ result_count (background_synthesis_task
        (fun i => if i = 1 then SynthOutcome.exn "boom" else SynthOutcome.ret true)
        (fun _ => Except.ok "/tmp/x.wav") none
        [⟨"TEXT", "one", "A"⟩, ⟨"TEXT", "two", "B"⟩, ⟨"TEXT", "three", "C"⟩])
      = count_returning
        (fun i => if i = 1 then SynthOutcome.exn "boom" else SynthOutcome.ret true)
        [⟨"TEXT", "one", "A"⟩, ⟨"TEXT", "two", "B"⟩, ⟨"TEXT", "three", "C"⟩] 0
    ∧ (background_synthesis_task
        (fun i => if i = 1 then SynthOutcome.exn "boom" else SynthOutcome.ret true)
        (fun _ => Except.ok "/tmp/x.wav") none
        [⟨"TEXT", "one", "A"⟩, ⟨"TEXT", "two", "B"⟩, ⟨"TEXT", "three", "C"⟩]).getLast?
      = some Msg.finished
    ∧ (drain_messages modal_initial_state (background_synthesis_task
        (fun i => if i = 1 then SynthOutcome.exn "boom" else SynthOutcome.ret true)
        (fun _ => Except.ok "/tmp/x.wav") none
        [⟨"TEXT", "one", "A"⟩, ⟨"TEXT", "two", "B"⟩, ⟨"TEXT", "three", "C"⟩])).collected_errors
      = error_messages (background_synthesis_task
        (fun i => if i = 1 then SynthOutcome.exn "boom" else SynthOutcome.ret true)
        (fun _ => Except.ok "/tmp/x.wav") none
        [⟨"TEXT", "one", "A"⟩, ⟨"TEXT", "two", "B"⟩, ⟨"TEXT", "three", "C"⟩]) :=
  c3_raising_failures_become_error_events
    (fun i => if i = 1 then SynthOutcome.exn "boom" else SynthOutcome.ret true)
    (fun _ => Except.ok "/tmp/x.wav")
    [⟨"TEXT", "one", "A"⟩, ⟨"TEXT", "two", "B"⟩, ⟨"TEXT", "three", "C"⟩]
    (fun _ => ⟨"/tmp/x.wav", rfl⟩)

/-- Claim C4 (code bug): a dotted reference resolves to the built-in
namespace as claimed; but for a NON-dotted reference the code passes the
entire `"module:ClassName"` string — colon included — to
`importlib.import_module` as the module name (instead of the module part),
so such an import can never succeed, since valid Python module names contain
no colon. -/
theorem c4_nondotted_module_name_keeps_colon :
    handler_module_of ".pyttsx3:Handler" = some ("vocal_vse.tts.pyttsx3", "Handler")
    ∧ handler_module_of "my_tts.engines:MyClass"
        = some ("my_tts.engines:MyClass", "MyClass")
    ∧ contains_substr ":" "my_tts.engines:MyClass" = true
    ∧ "my_tts.engines:MyClass" ≠ "my_tts.engines"
    ∧ handler_module_of "no_colon_spec" = none :=
  ⟨rfl, rfl, rfl, by decide, rfl⟩

/-- Claim C5: cancellation is observed only between items, so the terminal
events of a run whose flag becomes set before observation `c` are exactly
those of the uncancelled run on the first `c` items — the worker stops
processing further items upon observing the flag — and, since every event of
items `0 .. c-2` is emitted before the flag's (c-1)-to-c observation window,
at most ONE additional item's terminal event (item `c-1`'s) can follow the
moment the flag is set. -/
theorem c5_cancellation_stops_items_and_bounds_terminals
    (synth : Nat → SynthOutcome) (fp : Nat → Except String String)
    (strips : List Strip) (c : Nat) :
    terminal_events (background_synthesis_task synth fp (some c) strips)
      = terminal_events (background_synthesis_task synth fp none (strips.take c))
    ∧ (terminal_events (background_synthesis_task synth fp (some c) strips)).length
      ≤ (terminal_events
          (background_synthesis_task synth fp none (strips.take (c - 1)))).length + 1 := by
  have hA := loop_cancel_terminals synth fp c strips 0
  rw [Nat.sub_zero] at hA
  refine ⟨hA, ?_⟩
  unfold background_synthesis_task
  rw [show terminal_events (synthesis_loop synth fp (some c) strips 0)
      = terminal_events (synthesis_loop synth fp none (strips.take c) 0) from hA]
  cases c with
  | zero => simp
  | succ k => simpa using loop_take_succ_terminals synth fp strips k 0


/-- Claim C6 (counterexample): executable-not-found and non-zero-exit both
raise the SAME exception class (`RuntimeError`) — the two failure modes of
the external-process synthesizer are NOT distinguishable by type. -/
theorem c6_counterexample_same_exception_type :
    exc_type_of (cmd_synthesize ⟨"espeak-ng", []⟩ "/tmp/x.wav"
        (fun _ => ProcResult.not_found)) = some "RuntimeError"
    ∧ exc_type_of (cmd_synthesize ⟨"espeak-ng", []⟩ "/tmp/x.wav"
        (fun _ => ProcResult.exited 1 "out" "err")) = some "RuntimeError"
    ∧ exc_type_of (cmd_synthesize ⟨"espeak-ng", []⟩ "/tmp/x.wav"
          (fun _ => ProcResult.not_found))
      = exc_type_of (cmd_synthesize ⟨"espeak-ng", []⟩ "/tmp/x.wav"
          (fun _ => ProcResult.exited 1 "out" "err")) :=
  ⟨rfl, rfl, rfl⟩

/-- Claim C6 (amended): both failure modes of the external-process
synthesizer raise `RuntimeError`; they are distinguishable only by message —
executable-not-found carries `not_found_message` naming the executable, a
non-zero exit carries (wrapped) the message with the return code and the
captured stdout and stderr. -/
theorem c6_failure_modes_same_type_distinct_messages (s : CmdSynthesizer)
    (path : String) (cmd : List String) (rc : Int) (out err : String)
    (hprep : prepare_command s path = Except.ok cmd) (hrc : rc ≠ 0) :
    cmd_synthesize s path (fun _ => ProcResult.not_found)
      = Except.error ⟨"RuntimeError", not_found_message s.bin⟩
    ∧ cmd_synthesize s path (fun _ => ProcResult.exited rc out err)
      = Except.error ⟨"RuntimeError",
          wrapped_failure_message (nonzero_exit_message cmd rc out err)⟩ := by
  unfold cmd_synthesize
  rw [hprep]
  exact ⟨rfl, by simp [hrc]⟩

/-- Witness for `c6_failure_modes_same_type_distinct_messages` at a concrete
synthesizer. -/
theorem c6_failure_modes_witness :
    prepare_command ⟨"espeak-ng", []⟩ "/tmp/x.wav"
        = Except.ok ["espeak-ng", "/tmp/x.wav"]
    ∧ (1 : Int) ≠ 0
    ∧ (cmd_synthesize ⟨"espeak-ng", []⟩ "/tmp/x.wav" (fun _ => ProcResult.not_found)
        = Except.error ⟨"RuntimeError", not_found_message "espeak-ng"⟩
      ∧ cmd_synthesize ⟨"espeak-ng", []⟩ "/tmp/x.wav"
          (fun _ => ProcResult.exited 1 "out" "err")
        = Except.error ⟨"RuntimeError", wrapped_failure_message
            (nonzero_exit_message ["espeak-ng", "/tmp/x.wav"] 1 "out" "err")⟩) :=
  ⟨rfl, by decide,
    c6_failure_modes_same_type_distinct_messages ⟨"espeak-ng", []⟩ "/tmp/x.wav"
      ["espeak-ng", "/tmp/x.wav"] 1 "out" "err" rfl (by decide)⟩

/-- `format_args` computes the formatted template and the
`output_path_placeholder_used` flag. -/
theorem format_args_eq (path : String) (args : List String) :
    format_args path args =
      (args.map (fun a =>
          if contains_substr output_path_placeholder a then format_arg path a else a),
       args.any (fun a => contains_substr output_path_placeholder a)) := by
  induction args with
  | nil => rfl
  | cons a rest ih =>
    by_cases h : contains_substr output_path_placeholder a = true <;>
      simp [format_args, ih, h]

/-- Claim C7: for every template and output path (with a non-empty `bin`),
`_prepare_command` replaces the placeholder inside every template argument
that contains it, keeps the other arguments verbatim, appends the output
path as the final argument exactly when no template argument contained the
placeholder, and prepends `bin`. The claim's two concrete examples are
instances (see the witness). -/
theorem c7_prepare_command_placeholder_or_append (s : CmdSynthesizer)
    (path : String) (h : s.bin ≠ "") :
    prepare_command s path = Except.ok (s.bin ::
      (s.args.map (fun a =>
          if contains_substr output_path_placeholder a then format_arg path a else a)
        ++ (if s.args.any (fun a => contains_substr output_path_placeholder a)
            then [] else [path]))) := by
  unfold prepare_command
  rw [if_neg h, format_args_eq]
  by_cases ha : s.args.any (fun a => contains_substr output_path_placeholder a) = true <;>
    simp [ha]

/-- Witness for `c7_prepare_command_placeholder_or_append`: the claim's two
examples, template `["-o", "\x7boutput_path\x7d"]` and template `["-o"]`. -/
theorem c7_prepare_command_witness :
    ("bin" : String) ≠ ""
    ∧ prepare_command ⟨"bin", ["-o", "\x7boutput_path\x7d"]⟩ "/tmp/x.wav"
        = Except.ok ["bin", "-o", "/tmp/x.wav"]
    ∧ prepare_command ⟨"bin", ["-o"]⟩ "/tmp/x.wav"
        = Except.ok ["bin", "-o", "/tmp/x.wav"] :=
  ⟨by decide,
    (c7_prepare_command_placeholder_or_append ⟨"bin", ["-o", "\x7boutput_path\x7d"]⟩
      "/tmp/x.wav" (by decide)).trans (by rfl),
    (c7_prepare_command_placeholder_or_append ⟨"bin", ["-o"]⟩
      "/tmp/x.wav" (by decide)).trans (by rfl)⟩

/-- Claim C8: the registry's load fails soft — it is a total function of its
oracles. When the config file is missing (and the TOML library is present and
the default-file write succeeds) it writes the default example file and
returns THAT file's parsed contents; when the file exists but parsing fails
it returns the empty mapping instead of raising. -/
theorem c8_load_voices_fails_soft (parse : String → Option VoicesMap)
    (m : VoicesMap) (c : String)
    (hdef : parse default_voices_toml = some m) (hbad : parse c = none) :
    load_voices_config parse true none true = (m, some default_voices_toml)
    ∧ load_voices_config parse true (some c) true = ([], some c) := by
  unfold load_voices_config
  simp [hdef, hbad]

/-- Witness for `c8_load_voices_fails_soft` with a concrete parse oracle that
accepts the default file and rejects the string `"bad"`. -/
theorem c8_load_voices_witness :
    (fun s => if s = "bad" then none else some [("pyttsx3", "profile")])
        default_voices_toml = some [("pyttsx3", "profile")]
    ∧ (fun s => if s = "bad" then (none : Option VoicesMap)
        else some [("pyttsx3", "profile")]) "bad" = none
    ∧ (load_voices_config
          (fun s => if s = "bad" then none else some [("pyttsx3", "profile")])
          true none true = ([("pyttsx3", "profile")], some default_voices_toml)
      ∧ load_voices_config
          (fun s => if s = "bad" then none else some [("pyttsx3", "profile")])
          true (some "bad") true = ([], some "bad")) :=
  ⟨rfl, rfl,
    c8_load_voices_fails_soft
      (fun s => if s = "bad" then none else some [("pyttsx3", "profile")])
      [("pyttsx3", "profile")] "bad" rfl rfl⟩

/-- Claim C9: the output namer's identifier function is idempotent — a second
call (with any fresh random value) returns exactly the identifier stored by
the first call and leaves it unchanged — and the first call on an item
without an identifier mints and stores a 16-character identifier (the
`str(uuid.uuid4())` oracle, dashes removed, has at least 16 characters). -/
theorem c9_strip_id_idempotent_and_sixteen_chars (u u2 : String)
    (tts_id : Option String) (h : 16 ≤ (py_replace u "-" "").length) :
    get_or_create_strip_id u2 (get_or_create_strip_id u tts_id).2
        = ((get_or_create_strip_id u tts_id).1, (get_or_create_strip_id u tts_id).2)
    ∧ ((get_or_create_strip_id u none).1).length = 16 := by
  constructor
  · cases tts_id <;> rfl
  · show (String.mk ((py_replace u "-" "").toList.take 16)).length = 16
    have hlen : (py_replace u "-" "").toList.length = (py_replace u "-" "").length := rfl
    have h16 : 16 ≤ (py_replace u "-" "").toList.length := by omega
    show ((py_replace u "-" "").toList.take 16).length = 16
    rw [List.length_take]
    exact Nat.min_eq_left h16

/-- Witness for `c9_strip_id_idempotent_and_sixteen_chars` on a concrete
UUID string. -/
theorem c9_strip_id_witness :
    16 ≤ (py_replace "01234567-89ab-cdef-0123-456789abcdef" "-" "").length
    ∧ (get_or_create_strip_id "ffffffff-ffff-ffff-ffff-ffffffffffff"
          (get_or_create_strip_id "01234567-89ab-cdef-0123-456789abcdef" none).2
        = ((get_or_create_strip_id "01234567-89ab-cdef-0123-456789abcdef" none).1,
           (get_or_create_strip_id "01234567-89ab-cdef-0123-456789abcdef" none).2)
      ∧ ((get_or_create_strip_id "01234567-89ab-cdef-0123-456789abcdef" none).1).length
        = 16) :=
  ⟨by decide,
    c9_strip_id_idempotent_and_sixteen_chars
      "01234567-89ab-cdef-0123-456789abcdef"
      "ffffffff-ffff-ffff-ffff-ffffffffffff" none (by decide)⟩

/-- Claim C10: for an object using the lazy `_get_<name>` hook, the first
read of an attribute with a getter calls the getter exactly once (the
invocation counter advances from k to k + 1 and the CACHED value is the k-th
invocation's result), stores that value in the instance `__dict__`, and a
later read returns the stored value with the object unchanged — no further
getter call — including when the computed value is Python `None`. -/
theorem c10_lazy_attribute_cached_once (o : LazyObj) (name : String)
    (g : Nat → PyVal) (h1 : o.dict.lookup name = none)
    (h2 : o.getters ("_get_" ++ name) = some g)
    (h3 : py_startswith name "_get_" = false) :
    ∃ o1, read_attr o name
        = Except.ok (g (o.calls ("_get_" ++ name)), o1)
      ∧ o1.calls ("_get_" ++ name) = o.calls ("_get_" ++ name) + 1
      ∧ o1.dict.lookup name = some (g (o.calls ("_get_" ++ name)))
      ∧ read_attr o1 name = Except.ok (g (o.calls ("_get_" ++ name)), o1) := by
  refine ⟨{ o with
    dict := (name, g (o.calls ("_get_" ++ name))) :: o.dict,
    calls := fun s => if s = "_get_" ++ name
      then o.calls ("_get_" ++ name) + 1 else o.calls s }, ?_, ?_, ?_, ?_⟩
  · simp [read_attr, h1, h2, h3]
  · simp
  · simp [List.lookup]
  · simp [read_attr, List.lookup]

/-- Witness for `c10_lazy_attribute_cached_once`: a fresh object whose
`_get_engine` getter computes `None`. -/
theorem c10_lazy_attribute_witness :
    (([] : List (String × PyVal)).lookup "engine" = none)
    ∧ ((fun s => if s = "_get_engine" then some (fun (_ : Nat) => PyVal.pynone) else none)
        ("_get_" ++ "engine") = some (fun (_ : Nat) => PyVal.pynone))
    ∧ py_startswith "engine" "_get_" = false
    ∧ (∃ o1, read_attr
          ⟨[], (fun s => if s = "_get_engine" then some (fun (_ : Nat) => PyVal.pynone) else none),
           fun _ => 0⟩ "engine"
          = Except.ok ((fun _ => PyVal.pynone : Nat → PyVal) 0, o1)
        ∧ o1.calls ("_get_" ++ "engine") = 0 + 1
        ∧ o1.dict.lookup "engine" = some ((fun _ => PyVal.pynone : Nat → PyVal) 0)
        ∧ read_attr o1 "engine" = Except.ok ((fun _ => PyVal.pynone : Nat → PyVal) 0, o1)) :=
  ⟨rfl, rfl, rfl,
    c10_lazy_attribute_cached_once
      ⟨[], (fun s => if s = "_get_engine" then some (fun (_ : Nat) => PyVal.pynone) else none),
       fun _ => 0⟩ "engine" (fun _ => PyVal.pynone) rfl rfl rfl⟩
